import Mathlib

/-!
Shallow embedding of pilot/pkg/proxy/envoy/v2/cds.go: the CDS connection
registry, the StreamClusters stream handler loop, the cdsPushAll broadcast,
the Cdsz debug endpoint and FetchClusters. External collaborators
(identity parsing, config generation, version/nonce generation, the gRPC
transport) are taken as parameters, following the spec's interface view of
them. Machine-level concerns are embedded as follows: a Go nil-pointer
dereference is the explicit result crash; the capacity-one push channel is a
Boolean slot; a send that blocks because the slot is already occupied is the
result none.
-/

namespace CdsV2

/-- Modelled from the spec: ParsedIdentity, the opaque structured identity
produced by the external identity parser (model.Proxy is defined outside the
given sources); only an identifying payload string is tracked. -/
structure Proxy where
  id : String
  deriving DecidableEq

/-- Node message carried inside a discovery request (core.Node); only its Id
field is read by cds.go. -/
structure Node where
  id : String
  deriving DecidableEq

/-- Discovery request as read by StreamClusters: the optional node and the
optional error detail of an acknowledgement. -/
structure DiscoveryRequest where
  node : Option Node
  errorDetail : Option String
  deriving DecidableEq

/-- Opaque cluster resource returned by the config generator. -/
structure Cluster where
  name : String
  deriving DecidableEq

/-- Modelled from the spec: the resource type constant identifying the
discovery kind (the clusterType constant is defined outside the given
sources; no claim depends on its value). -/
def clusterType : String := "clusterType"

/-- Discovery response envelope built by CdsConnection.clusters; MarshalAny
is modelled as the identity, so resources carries the raw cluster list. -/
structure DiscoveryResponse where
  typeUrl : String
  versionInfo : String
  nonce : String
  resources : List Cluster
  deriving DecidableEq

/-- CdsConnection (cds.go lines 50-61): peer address, connect time, the
optional parsed node, and the capacity-one push channel, modelled by the
Boolean pushPending saying whether its single slot holds a signal. connId
models the Go pointer identity of the *CdsConnection value. -/
structure CdsConnection where
  connId : Nat
  PeerAddr : String
  Connect : Nat
  modelNode : Option Proxy
  pushPending : Bool
  deriving DecidableEq

/-- Registry cdsConnections (cds.go line 45): map from node key to
connection, modelled as an association list whose lookup returns the first
binding. -/
abbrev Registry := List (String × CdsConnection)

/-- Lookup in the registry map. -/
def regGet : Registry → String → Option CdsConnection
  | [], _ => none
  | (k', c) :: rest, k => if k' = k then some c else regGet rest k

/-- Transcription of removeCdsCon (cds.go lines 220-222): the function body
is empty, so the registry is returned unchanged whatever the arguments. -/
def removeCdsCon (node : String) (connection : CdsConnection) (reg : Registry) : Registry :=
  reg

/-- Send on a capacity-one push channel exactly as cds.go line 191 performs
it (cdsCon.pushChannel <- true, with no select/default around it): with an
empty slot the slot is filled; with an occupied slot the send cannot
complete and the sender blocks, embedded as the result none. -/
def chanBlockingSend (pending : Bool) : Option Bool :=
  if pending then none else some true

/-- Transcription of cdsPushAll (cds.go lines 181-193): iterate the snapshot
of the registry's connections and send true on each one's push channel; the
result none means the broadcast is blocked on a connection whose channel
already holds a pending signal. -/
def cdsPushAll : List CdsConnection → Option (List CdsConnection)
  | [] => some []
  | c :: rest =>
    match chanBlockingSend c.pushPending with
    | none => none
    | some p =>
      match cdsPushAll rest with
      | none => none
      | some out => some ({ c with pushPending := p } :: out)

/-- Outcome of stream.Recv observed by the background reader goroutine. -/
inductive RecvError where
  | eof
  | canceled
  | other (msg : String)
  deriving DecidableEq

/-- Reader-side classification of a failed Recv (cds.go lines 111-121):
gRPC Canceled and io.EOF leave receiveError unset (nil); any other receive
error is recorded in receiveError before the reader returns. -/
def classifyRecvError : RecvError → Option String
  | .eof => none
  | .canceled => none
  | .other msg => some msg

/-- Effect of the reader goroutine when Recv fails (cds.go lines 111-121):
it calls removeCdsCon on the registry and records receiveError, after which
the deferred close of reqChannel wakes the main loop. -/
def readerOnRecvError (node : String) (con : CdsConnection) (reg : Registry)
    (e : RecvError) : Registry × Option String :=
  (removeCdsCon node con reg, classifyRecvError e)

/-- Per-stream loop state of StreamClusters (cds.go lines 92-106): the node
key, the initialRequestReceived flag, and the connection object. -/
structure StreamState where
  node : String
  initialRequestReceived : Bool
  con : CdsConnection
  deriving DecidableEq

/-- Events the main loop of StreamClusters can wake up on: a request
delivered on reqChannel, the closing of reqChannel by the reader, or the
push-signal channel firing. -/
inductive StreamEvent where
  | request (r : DiscoveryRequest)
  | channelClosed
  | push
  deriving DecidableEq

/-- Observable output of one loop iteration: the response written to the
stream, if any, and the identity passed to BuildClusters, if it was
invoked. -/
structure StepOutput where
  sent : Option DiscoveryResponse
  producerArg : Option Proxy
  deriving DecidableEq

/-- Result of one iteration of the StreamClusters loop: return from the
handler with an optional error, continue looping with an updated state, or
a nil-pointer panic. -/
inductive StepResult where
  | terminate (err : Option String)
  | continueLoop (st : StreamState) (out : StepOutput)
  | crash
  deriving DecidableEq

/-- External collaborators and per-iteration transport outcomes consumed by
StreamClusters: model.ParseServiceNode, connectionID, the config generator's
BuildClusters, the versionInfo and nonce generators, the outcome of the next
stream.Send, and the receiveError value visible when reqChannel closes. -/
structure StreamEnv where
  parseServiceNode : String → Except String Proxy
  connectionID : String → String
  buildClusters : Proxy → List Cluster × Option String
  versionInfo : String
  nonce : String
  sendErr : Option String
  receiveError : Option String

/-- CdsConnection.clusters (cds.go lines 64-83): wrap the cluster list in a
DiscoveryResponse carrying the cluster type url and freshly generated
version and nonce; the receiver is not otherwise used, as in the source. -/
def CdsConnection.clusters (con : CdsConnection) (versionInfo nonce : String)
    (response : List Cluster) : DiscoveryResponse :=
  { typeUrl := clusterType, versionInfo := versionInfo, nonce := nonce,
    resources := response }

/-- Response phase of the loop body (cds.go lines 163-176): dereference
con.modelNode (a nil dereference, hence crash, if it is unset), call
BuildClusters keeping only the cluster list and discarding the error (the
blank identifier on line 163), build the response and send it; a send
failure makes the handler return that error, otherwise the loop continues. -/
def sendResponse (env : StreamEnv) (st : StreamState) : StepResult :=
  match st.con.modelNode with
  | none => .crash
  | some nd =>
    match env.sendErr with
    | some e => .terminate (some e)
    | none =>
      .continueLoop st
        { sent := some (st.con.clusters env.versionInfo env.nonce (env.buildClusters nd).1),
          producerArg := some nd }

/-- One iteration of the main loop of StreamClusters (cds.go lines 125-177).
On a closed reqChannel the handler returns receiveError. On a request the
node key is derived the first time (line 132), the node string is parsed by
ParseServiceNode on every request (line 135, a missing node being a nil
dereference), a parse failure makes the handler return that error (line
137), and the parsed identity is re-attached to the connection (line 140);
then either the acknowledgement is logged and the loop continues
(initialRequestReceived already true, line 152) or the initial request sets
the flag and falls through to the response phase. A push signal goes
straight to the response phase. -/
def stepStream (env : StreamEnv) (st : StreamState) : StreamEvent → StepResult
  | .channelClosed => .terminate env.receiveError
  | .push => sendResponse env st
  | .request r =>
    match r.node with
    | none => .crash
    | some n =>
      match env.parseServiceNode n.id with
      | .error e => .terminate (some e)
      | .ok nt =>
        if st.initialRequestReceived then
          .continueLoop
            { node := if st.node = "" then env.connectionID n.id else st.node,
              initialRequestReceived := st.initialRequestReceived,
              con := { st.con with modelNode := some nt } }
            { sent := none, producerArg := none }
        else
          sendResponse env
            { node := if st.node = "" then env.connectionID n.id else st.node,
              initialRequestReceived := true,
              con := { st.con with modelNode := some nt } }

/-- Stream-open phase of StreamClusters (cds.go lines 86-106): build the
CdsConnection with an empty capacity-one push channel and the initial loop
state. The source contains no insertion of the connection into
cdsConnections anywhere in StreamClusters, so the registry is returned
unchanged. -/
def streamOpen (peerAddr : String) (connect freshId : Nat)
    (reg : Registry) : StreamState × Registry :=
  ({ node := "", initialRequestReceived := false,
     con := { connId := freshId, PeerAddr := peerAddr, Connect := connect,
              modelNode := none, pushPending := false } }, reg)

/-- FetchClusters (cds.go lines 216-218): always a nil response together
with the not-implemented error. -/
def FetchClusters (req : DiscoveryRequest) : Option DiscoveryResponse × Option String :=
  (none, some "not implemented")

/-- Observable outcome of one Cdsz request: the resulting cdsDebug flag,
whether cdsPushAll was invoked (and with what outcome on the connections),
and whether the marshalled registry snapshot was written to the response. -/
structure CdszResult where
  cdsDebug : Bool
  pushed : Option (Option (List CdsConnection))
  wroteSnapshot : Bool
  deriving DecidableEq

/-- Cdsz (cds.go lines 197-213): a non-empty debug parameter sets cdsDebug
to whether the value equals "1" and returns at once, writing nothing and
pushing nothing; otherwise a non-empty push parameter (any value) invokes
cdsPushAll; in either remaining case the marshalled registry is written. -/
def Cdsz (debugParam pushParam : String) (dbg : Bool)
    (conns : List CdsConnection) : CdszResult :=
  if debugParam ≠ "" then
    { cdsDebug := decide (debugParam = "1"), pushed := none, wroteSnapshot := false }
  else if pushParam ≠ "" then
    { cdsDebug := dbg, pushed := some (cdsPushAll conns), wroteSnapshot := true }
  else
    { cdsDebug := dbg, pushed := none, wroteSnapshot := true }

/-- Concrete connection with an empty push channel, for the concrete
evaluations below. -/
def connA : CdsConnection :=
  { connId := 1, PeerAddr := "10.0.0.1:1234", Connect := 5,
    modelNode := none, pushPending := false }

/-- Concrete connection whose capacity-one push channel already holds a
pending signal. -/
def connFull : CdsConnection :=
  { connId := 2, PeerAddr := "10.0.0.2:1234", Connect := 6,
    modelNode := none, pushPending := true }

/-- Concrete identity parser: accepts the two well-formed node strings used
in the concrete evaluations and rejects everything else. -/
def parseFixture : String → Except String Proxy :=
  fun s =>
    if s = "sidecar~a" then .ok { id := "sidecar~a" }
    else if s = "sidecar~b" then .ok { id := "sidecar~b" }
    else .error "invalid node"

/-- Concrete environment: parseFixture, a connection-id derivation, a config
generator returning one cluster named after the identity with no error, and
a healthy transport. -/
def envFixture : StreamEnv :=
  { parseServiceNode := parseFixture,
    connectionID := fun s => s,
    buildClusters := fun nd => ([{ name := nd.id }], none),
    versionInfo := "v0", nonce := "n0",
    sendErr := none, receiveError := none }

/-- C1, counterexample: the broadcast does not skip a connection whose
capacity-one push channel already holds a pending signal; the send on
cds.go line 191 has no select/default, so cdsPushAll blocks on connFull,
embedded as the result none, refuting that the broadcast never blocks. -/
theorem C1_counterexample :
    connFull.pushPending = true ∧ cdsPushAll [connFull] = none :=
  ⟨rfl, rfl⟩

/-- C1, amended: cdsPushAll performs a blocking send on each snapshotted
connection's capacity-one push channel; when no channel already holds a
signal the broadcast completes and leaves exactly one pending signal in
each connection's single-slot channel, so a connection still observes at
most one pending push, but a channel that is already full blocks the
broadcast instead of being skipped. -/
theorem C1_theorem (conns : List CdsConnection)
    (h : ∀ c ∈ conns, c.pushPending = false) :
    cdsPushAll conns = some (conns.map fun c => { c with pushPending := true }) := by
  induction conns with
  | nil => rfl
  | cons c rest ih =>
    have hc : c.pushPending = false := h c (by simp)
    have hr : ∀ x ∈ rest, x.pushPending = false := fun x hx => h x (by simp [hx])
    simp [cdsPushAll, chanBlockingSend, hc, ih hr]

/-- C1, witness: the amended theorem evaluated on a one-connection snapshot
whose channel is empty. -/
theorem C1_witness :
    cdsPushAll [connA] = some [{ connA with pushPending := true }] :=
  C1_theorem [connA] (by decide)

/-- C2: the registry is untouched on both ends of the stream's lifetime:
the stream-open phase of StreamClusters contains no insertion into
cdsConnections, and removeCdsCon has an empty body, so no termination path
removes anything; the connection is therefore never reachable from the
registry, contradicting the claimed add-on-open / remove-on-termination
lifecycle. -/
theorem C2_theorem (peerAddr : String) (connect freshId : Nat) (reg : Registry)
    (node : String) (con : CdsConnection) :
    (streamOpen peerAddr connect freshId reg).2 = reg ∧
    removeCdsCon node con reg = reg :=
  ⟨rfl, rfl⟩

/-- C3: evaluating removeCdsCon at its failing input: the registry stores
exactly the passed connection under the passed key, yet removal leaves the
entry in place, because the function body is empty; the claimed
delete-when-identical behaviour never happens. -/
theorem C3_theorem :
    regGet [("K", connA)] "K" = some connA ∧
    removeCdsCon "K" connA [("K", connA)] = [("K", connA)] := by
  constructor
  · simp [regGet]
  · rfl

/-- C9: FetchClusters returns a nil response together with the
not-implemented error for every request, never a fabricated response with a
nil error. -/
theorem C9_theorem (req : DiscoveryRequest) :
    (FetchClusters req).1 = none ∧ (FetchClusters req).2 = some "not implemented" :=
  ⟨rfl, rfl⟩

/-- C10: a non-empty debug parameter makes Cdsz set cdsDebug to whether the
value equals "1" and return at once, writing no snapshot and invoking no
broadcast even when the push parameter is also set; with the debug
parameter empty, any non-empty push value invokes cdsPushAll before the
snapshot is written. -/
theorem C10_theorem (debugParam pushParam : String) (dbg : Bool)
    (conns : List CdsConnection) :
    (debugParam ≠ "" →
      Cdsz debugParam pushParam dbg conns =
        { cdsDebug := decide (debugParam = "1"), pushed := none,
          wroteSnapshot := false }) ∧
    (debugParam = "" → pushParam ≠ "" →
      Cdsz debugParam pushParam dbg conns =
        { cdsDebug := dbg, pushed := some (cdsPushAll conns),
          wroteSnapshot := true }) := by
  constructor
  · intro hd
    simp [Cdsz, hd]
  · intro hd hp
    simp [Cdsz, hd, hp]

/-- C10, witness: the theorem evaluated at a request carrying debug=2 and
push=1 (flag set to false, nothing written, no broadcast) and at a request
carrying only push=go (broadcast invoked, snapshot written). -/
theorem C10_witness :
    Cdsz "2" "1" true [connA] =
      { cdsDebug := false, pushed := none, wroteSnapshot := false } ∧
    Cdsz "" "go" false [connFull] =
      { cdsDebug := false, pushed := some none, wroteSnapshot := true } :=
  ⟨(C10_theorem ("2") ("1") true [connA]).1 (by decide),
   (C10_theorem ("") ("go") false [connFull]).2 rfl (by decide)⟩

/-- Concrete active stream state: past the initial request, with identity
sidecar~a attached. -/
def stActiveA : StreamState :=
  { node := "sidecar~a", initialRequestReceived := true,
    con := { connA with modelNode := some { id := "sidecar~a" } } }

/-- Concrete environment whose config generator fails, returning one cluster
alongside an error. -/
def envProducerErr : StreamEnv :=
  { envFixture with buildClusters := fun nd => ([{ name := nd.id }], some "producer boom") }

/-- C4, counterexample: with the config generator returning an error, the
push trigger still sends a response: line 163 discards the BuildClusters
error into the blank identifier and the response built from the returned
clusters is written to the stream, refuting that no response is sent for
that trigger. -/
theorem C4_counterexample :
    (envProducerErr.buildClusters { id := "sidecar~a" }).2 = some "producer boom" ∧
    stepStream envProducerErr stActiveA .push =
      .continueLoop stActiveA
        { sent := some { typeUrl := clusterType, versionInfo := "v0", nonce := "n0",
                         resources := [{ name := "sidecar~a" }] },
          producerArg := some { id := "sidecar~a" } } :=
  ⟨rfl, rfl⟩

/-- C4, amended: a BuildClusters error is discarded without being logged or
inspected, and a response built from whatever cluster list was returned is
sent anyway; the step's outcome is the same whatever the error component,
and the connection keeps looping unless the send itself fails. -/
theorem C4_theorem (env : StreamEnv) (st : StreamState) (nd : Proxy)
    (cs : List Cluster) (errOpt : Option String)
    (hnode : st.con.modelNode = some nd)
    (hbuild : env.buildClusters nd = (cs, errOpt))
    (hsend : env.sendErr = none) :
    stepStream env st .push =
      .continueLoop st
        { sent := some (st.con.clusters env.versionInfo env.nonce cs),
          producerArg := some nd } := by
  simp [stepStream, sendResponse, hnode, hsend, hbuild]

/-- C4, witness: the amended theorem evaluated on a generator returning an
empty cluster list together with a transient error; an empty response is
still sent and the loop continues. -/
theorem C4_witness :
    stepStream { envFixture with buildClusters := fun _ => ([], some "transient failure") }
        stActiveA .push =
      .continueLoop stActiveA
        { sent := some { typeUrl := clusterType, versionInfo := "v0", nonce := "n0",
                         resources := [] },
          producerArg := some { id := "sidecar~a" } } :=
  C4_theorem _ stActiveA { id := "sidecar~a" } [] (some "transient failure") rfl rfl rfl

/-- C5, counterexample: a malformed node string in a request arriving after
the initial one is re-parsed (line 135 runs on every request) and the parse
failure makes the handler return the error, terminating the stream,
refuting that the identity is parsed only from the first request and that a
malformed subsequent acknowledgement is harmless. -/
theorem C5_counterexample :
    stActiveA.initialRequestReceived = true ∧
    stepStream envFixture stActiveA
        (.request { node := some { id := "bogus-node" }, errorDetail := none }) =
      .terminate (some "invalid node") :=
  ⟨rfl, rfl⟩

/-- C5, amended: the node string is parsed by ParseServiceNode on every
inbound request, not only the first, and the parsed identity is re-attached
to the connection each time; a parse failure on any request, including a
subsequent acknowledgement, terminates the stream with that error. -/
theorem C5_theorem (env : StreamEnv) (st : StreamState) (n : Node)
    (ed : Option String) :
    (∀ e, env.parseServiceNode n.id = .error e →
      stepStream env st (.request { node := some n, errorDetail := ed }) =
        .terminate (some e)) ∧
    (∀ nt, env.parseServiceNode n.id = .ok nt → env.sendErr = none →
      ∃ st' out,
        stepStream env st (.request { node := some n, errorDetail := ed }) =
          .continueLoop st' out ∧ st'.con.modelNode = some nt) := by
  constructor
  · intro e he
    simp [stepStream, he]
  · intro nt hn hs
    by_cases hinit : st.initialRequestReceived = true
    · refine ⟨{ node := if st.node = "" then env.connectionID n.id else st.node,
                initialRequestReceived := st.initialRequestReceived,
                con := { st.con with modelNode := some nt } },
              { sent := none, producerArg := none }, ?_, rfl⟩
      simp [stepStream, hn, hinit]
    · refine ⟨{ node := if st.node = "" then env.connectionID n.id else st.node,
                initialRequestReceived := true,
                con := { st.con with modelNode := some nt } },
              { sent := some (CdsConnection.clusters { st.con with modelNode := some nt }
                          env.versionInfo env.nonce (env.buildClusters nt).1),
                producerArg := some nt }, ?_, rfl⟩
      simp [stepStream, sendResponse, hn, hinit, hs]

/-- C5, witness: the theorem evaluated on an active stream, once at a node
string the parser rejects (the stream terminates) and once at the
well-formed node sidecar~b (the loop continues with the re-attached
identity sidecar~b, although the stream's identity was sidecar~a). -/
theorem C5_witness :
    stepStream envFixture stActiveA
        (.request { node := some { id := "oops" }, errorDetail := none }) =
      .terminate (some "invalid node") ∧
    ∃ st' out,
      stepStream envFixture stActiveA
          (.request { node := some { id := "sidecar~b" }, errorDetail := none }) =
        .continueLoop st' out ∧ st'.con.modelNode = some { id := "sidecar~b" } :=
  ⟨(C5_theorem envFixture stActiveA { id := "oops" } none).1 "invalid node" rfl,
   (C5_theorem envFixture stActiveA { id := "sidecar~b" } none).2
     { id := "sidecar~b" } rfl rfl⟩

/-- Concrete freshly opened stream state: identity still unset. -/
def stAwaiting : StreamState :=
  { node := "", initialRequestReceived := false, con := connA }

/-- C6, counterexample: if the push-signal branch fires while the
connection's identity is still unset, line 163 dereferences the nil
modelNode pointer, embedded as the crash result, refuting that the handler
does not dereference the nil identity. -/
theorem C6_counterexample :
    stAwaiting.con.modelNode = none ∧
    stepStream envFixture stAwaiting .push = .crash :=
  ⟨rfl, rfl⟩

/-- C6, amended: whenever a loop iteration continues having sent a response,
the continuing state carries an attached identity and BuildClusters was
called with exactly that identity, so no response is computed or sent
without the identity set; the push branch, however, has no nil guard, and a
push signal delivered while the identity is unset dereferences nil instead
of being handled safely. -/
theorem C6_theorem (env : StreamEnv) (st : StreamState) (ev : StreamEvent)
    (st' : StreamState) (out : StepOutput)
    (h : stepStream env st ev = .continueLoop st' out)
    (hsent : out.sent.isSome = true) :
    out.producerArg = st'.con.modelNode ∧ st'.con.modelNode.isSome = true := by
  cases ev with
  | channelClosed => simp [stepStream] at h
  | push =>
    simp only [stepStream, sendResponse] at h
    cases hm : st.con.modelNode with
    | none => rw [hm] at h; simp at h
    | some nd =>
      rw [hm] at h
      cases hs : env.sendErr with
      | some e => rw [hs] at h; simp at h
      | none =>
        rw [hs] at h
        simp only [StepResult.continueLoop.injEq] at h
        obtain ⟨hst, hout⟩ := h
        subst hst
        subst hout
        simp [hm]
  | request r =>
    obtain ⟨rn, red⟩ := r
    cases rn with
    | none => simp [stepStream] at h
    | some n =>
      cases hp : env.parseServiceNode n.id with
      | error e => simp [stepStream, hp] at h
      | ok nt =>
        by_cases hinit : st.initialRequestReceived = true
        · simp only [stepStream, hp, hinit, if_true] at h
          simp only [StepResult.continueLoop.injEq] at h
          obtain ⟨hst, hout⟩ := h
          subst hout
          simp at hsent
        · cases hs : env.sendErr with
          | some e => simp [stepStream, sendResponse, hp, hinit, hs] at h
          | none =>
            simp [stepStream, sendResponse, hp, hinit, hs] at h
            obtain ⟨hst, hout⟩ := h
            subst hst
            subst hout
            exact ⟨rfl, rfl⟩

/-- Loop state reached after processing the initial request of a fresh
stream whose node is sidecar~a under envFixture. -/
def stInitialDone : StreamState :=
  { node := "sidecar~a", initialRequestReceived := true,
    con := { connA with modelNode := some { id := "sidecar~a" } } }

/-- Observable output of processing that initial request: one response sent,
BuildClusters invoked with the identity sidecar~a. -/
def outInitialPush : StepOutput :=
  { sent := some { typeUrl := clusterType, versionInfo := "v0", nonce := "n0",
                   resources := [{ name := "sidecar~a" }] },
    producerArg := some { id := "sidecar~a" } }

/-- C6, witness: the amended theorem evaluated on the initial request of a
fresh stream: the continuing state carries the freshly parsed identity
sidecar~a and BuildClusters was invoked with exactly that identity. -/
theorem C6_witness :
    outInitialPush.producerArg = stInitialDone.con.modelNode ∧
    stInitialDone.con.modelNode.isSome = true :=
  C6_theorem envFixture stAwaiting
    (.request { node := some { id := "sidecar~a" }, errorDetail := none })
    stInitialDone outInitialPush rfl rfl

/-- Concrete active stream state with identity sidecar~b attached, used for
the subsequent-request evaluations. -/
def stActiveB : StreamState :=
  { node := "sidecar~b", initialRequestReceived := true,
    con := { connId := 3, PeerAddr := "10.0.0.3:1234", Connect := 7,
             modelNode := some { id := "sidecar~b" }, pushPending := false } }

/-- C7, counterexample: a request arriving after the initial one whose node
string does not parse is not logged-and-skipped: line 135 re-parses it and
line 137 makes the handler return the parse error, terminating the stream,
refuting that every subsequent request leaves the loop running. -/
theorem C7_counterexample :
    stActiveB.initialRequestReceived = true ∧
    stepStream envFixture stActiveB
        (.request { node := some { id := "mangled" }, errorDetail := some "client rejected" }) =
      .terminate (some "invalid node") :=
  ⟨rfl, rfl⟩

/-- C7, amended: a request after the initial one whose node string parses
successfully is treated as an acknowledgement: the handler logs it and
continues the loop without invoking BuildClusters and without sending any
response, whatever the error detail; its parsed node is nonetheless
re-attached as the connection identity, and a subsequent request whose node
string fails to parse terminates the stream instead. -/
theorem C7_theorem (env : StreamEnv) (st : StreamState) (n : Node)
    (ed : Option String) (nt : Proxy)
    (hact : st.initialRequestReceived = true)
    (hok : env.parseServiceNode n.id = .ok nt) :
    stepStream env st (.request { node := some n, errorDetail := ed }) =
      .continueLoop
        { node := if st.node = "" then env.connectionID n.id else st.node,
          initialRequestReceived := st.initialRequestReceived,
          con := { st.con with modelNode := some nt } }
        { sent := none, producerArg := none } := by
  simp [stepStream, hok, hact]

/-- C7, witness: the amended theorem evaluated on an active sidecar~b stream
receiving an acknowledgement that carries the well-formed node sidecar~b
and an error detail: nothing is sent and the producer is not invoked. -/
theorem C7_witness :
    stepStream envFixture stActiveB
        (.request { node := some { id := "sidecar~b" }, errorDetail := some "nack" }) =
      .continueLoop
        { node := "sidecar~b", initialRequestReceived := true,
          con := { connId := 3, PeerAddr := "10.0.0.3:1234", Connect := 7,
                   modelNode := some { id := "sidecar~b" }, pushPending := false } }
        { sent := none, producerArg := none } :=
  C7_theorem envFixture stActiveB { id := "sidecar~b" } (some "nack")
    { id := "sidecar~b" } rfl rfl

/-- C8: when the background reader's Recv fails it records receiveError as
classifyRecvError does and the main loop, woken by the closed reqChannel,
returns exactly that value: nil for io.EOF and gRPC cancellation, the read
error itself for anything else. -/
theorem C8_theorem (env : StreamEnv) (st : StreamState) (reg : Registry)
    (node : String) (con : CdsConnection) (e : RecvError)
    (h : env.receiveError = classifyRecvError e) :
    (readerOnRecvError node con reg e).2 = classifyRecvError e ∧
    stepStream env st .channelClosed = .terminate (classifyRecvError e) ∧
    ((e = .eof ∨ e = .canceled) → classifyRecvError e = none) ∧
    (∀ msg, e = .other msg → classifyRecvError e = some msg) := by
  refine ⟨rfl, by simp [stepStream, h], ?_, ?_⟩
  · rintro (rfl | rfl) <;> rfl
  · rintro msg rfl
    rfl

/-- C8, witness: the theorem evaluated on a reader failing with a transport
error: the handler terminates returning exactly that error. -/
theorem C8_witness :
    (readerOnRecvError "sidecar~a" connA [] (.other "socket reset")).2 =
      classifyRecvError (.other "socket reset") ∧
    stepStream { envFixture with receiveError := some "socket reset" } stActiveA
        .channelClosed =
      .terminate (classifyRecvError (.other "socket reset")) ∧
    (((.other "socket reset" : RecvError) = .eof ∨
        (.other "socket reset" : RecvError) = .canceled) →
      classifyRecvError (.other "socket reset") = none) ∧
    (∀ msg, (.other "socket reset" : RecvError) = .other msg →
      classifyRecvError (.other "socket reset") = some msg) :=
  C8_theorem { envFixture with receiveError := some "socket reset" } stActiveA
    [] "sidecar~a" connA (.other "socket reset") rfl

end CdsV2
